import Mathlib

/-!
Shallow embedding of the native OS-abstraction layer declared in
src/main/native/unix_jni.h of the Bazel repository. Enumerations, type
signatures and preprocessor logic present in the header are embedded
directly. Function bodies live in implementation files that are not part
of the provided source tree; those are modelled from the specification,
as marked in their doc comments.
-/

/-- StatTimes enum of unix_jni.h lines 74-78: selects one of the three
timestamps in a stat buffer (access, modification, status change). -/
inductive StatTimes where
  | STAT_ATIME
  | STAT_MTIME
  | STAT_CTIME
  deriving DecidableEq

/-- SuspensionReason enum of unix_jni.h lines 117-122, with the explicit
initializers of the C declaration. -/
inductive SuspensionReason where
  | SuspensionReasonSIGTSTP
  | SuspensionReasonSIGCONT
  | SuspensionReasonSleep
  | SuspensionReasonWake
  deriving DecidableEq

/-- Numeric value the C declaration assigns to each SuspensionReason
enumerator (unix_jni.h lines 118-121). -/
def suspensionReasonValue : SuspensionReason → Nat
  | .SuspensionReasonSIGTSTP => 0
  | .SuspensionReasonSIGCONT => 1
  | .SuspensionReasonSleep => 2
  | .SuspensionReasonWake => 3

/-- MemoryPressureLevel enum of unix_jni.h lines 156-159. -/
inductive MemoryPressureLevel where
  | MemoryPressureLevelWarning
  | MemoryPressureLevelCritical
  deriving DecidableEq

/-- Numeric value the C declaration assigns to each MemoryPressureLevel
enumerator (unix_jni.h lines 157-158). -/
def memoryPressureLevelValue : MemoryPressureLevel → Nat
  | .MemoryPressureLevelWarning => 0
  | .MemoryPressureLevelCritical => 1

/-- Modelled from the spec: the host-side constants of
SystemSuspensionEvent.java are not in the source tree; the spec fixes them
as a wire contract byte-identical to the native SuspensionReason values
(stop, resume, sleep-entry, wake in that order). -/
def hostSuspensionReasonValue : SuspensionReason → Nat
  | .SuspensionReasonSIGTSTP => 0
  | .SuspensionReasonSIGCONT => 1
  | .SuspensionReasonSleep => 2
  | .SuspensionReasonWake => 3

/-- Modelled from the spec: the host-side constants of
SystemMemoryPressureEvent.java are not in the source tree; the spec fixes
them as WARNING = 0 and CRITICAL = 1, byte-identical to the native side. -/
def hostMemoryPressureLevelValue : MemoryPressureLevel → Nat
  | .MemoryPressureLevelWarning => 0
  | .MemoryPressureLevelCritical => 1

/-- A POSIX timespec as stored inside the stat structure: wide (64-bit
capable) seconds and nanoseconds fields, modelled as unbounded integers. -/
structure Timespec where
  tv_sec : Int
  tv_nsec : Int
  deriving DecidableEq

/-- portable_stat_struct of unix_jni.h lines 40-49: struct stat on
Apple/BSD, struct stat64 elsewhere; modelled as one portable record with
the fields this layer reads (identity, mode, link count, size, and the
three timestamps). -/
structure portable_stat_struct where
  st_dev : Nat
  st_ino : Nat
  st_mode : Nat
  st_nlink : Nat
  st_size : Int
  st_atim : Timespec
  st_mtim : Timespec
  st_ctim : Timespec
  deriving DecidableEq

/-- Narrowing of a wide integer to the C int return type declared in
unix_jni.h lines 81 and 84: 32-bit signed two-complement wraparound
(4294967296 is 2 to the 32nd, 2147483648 is 2 to the 31st). -/
def toInt32 (x : Int) : Int := (x + 2147483648) % 4294967296 - 2147483648

/-- Selects the timespec field named by the StatTimes selector. -/
def selectTimespec (statbuf : portable_stat_struct) : StatTimes → Timespec
  | .STAT_ATIME => statbuf.st_atim
  | .STAT_MTIME => statbuf.st_mtim
  | .STAT_CTIME => statbuf.st_ctim

/-- Modelled from the spec: the body of StatSeconds is in an implementation
file outside the source tree; the header (unix_jni.h line 81) declares it
as returning the selected seconds field as a C int, and the spec calls it a
pure extraction with no failure path. -/
def StatSeconds (statbuf : portable_stat_struct) (t : StatTimes) : Int :=
  toInt32 (selectTimespec statbuf t).tv_sec

/-- Modelled from the spec: the body of StatNanoSeconds is outside the
source tree; the header (unix_jni.h line 84) declares it as returning the
selected nanoseconds field as a C int. -/
def StatNanoSeconds (statbuf : portable_stat_struct) (t : StatTimes) : Int :=
  toInt32 (selectTimespec statbuf t).tv_nsec

/-- The POSIX error number for a missing syscall capability (value on
Linux; the exact number is platform-chosen, its identity is what matters). -/
def ENOSYS : Nat := 38

/-- The POSIX generic input-output error number. -/
def EIOCode : Nat := 5

/-- Whether the build platform provides the fstatat(2) syscall. -/
structure FstatatPlatform where
  has_fstatat : Bool
  deriving DecidableEq

/-- Outcome of a stat-family call: a filled stat buffer or an error
number left in errno. -/
inductive StatCallResult where
  | ok (statbuf : portable_stat_struct)
  | err (error_number : Nat)
  deriving DecidableEq

/-- Modelled from the spec: the body of portable_fstatat is outside the
source tree; the header (unix_jni.h line 69) documents it as running
fstatat(2) if available and setting errno to ENOSYS if not. The outcome
of the underlying syscall, where available, is a parameter. -/
def portable_fstatat (p : FstatatPlatform) (os : StatCallResult) : StatCallResult :=
  if p.has_fstatat then os else .err ENOSYS

/-- Which attribute-absence error numbers the platform headers define
(unix_jni.h lines 51-57): the native ENODATA code, when present, and the
BSD-style ENOATTR code, when present. -/
structure XAttrPlatform where
  enodata : Option Nat
  enoattr : Option Nat
  deriving DecidableEq

/-- The preprocessor logic of unix_jni.h lines 51-57: use the native
ENODATA when defined, otherwise fall back to ENOATTR (a platform defining
neither fails to compile, modelled as none). -/
def effectiveENODATA (p : XAttrPlatform) : Option Nat :=
  match p.enodata with
  | some e => some e
  | none => p.enoattr

/-- Outcome of the raw getxattr(2) or lgetxattr(2) syscall: the attribute
value read, or a failure with an error number. -/
inductive OsXattrResult where
  | attr (value : List Nat)
  | fail (error_number : Nat)
  deriving DecidableEq

/-- The raw error number carried by a failed OS xattr outcome. -/
def osErrno : OsXattrResult → Nat
  | .attr _ => 0
  | .fail e => e

/-- What a portable xattr call leaves behind: the ssize_t return value,
the bytes written into the caller-supplied buffer, the attr_not_found
output flag, and errno. -/
structure XAttrCallResult where
  ret : Int
  written : List Nat
  attr_not_found : Bool
  errno : Nat
  deriving DecidableEq

/-- Modelled from the spec: the shared body of portable_getxattr and
portable_lgetxattr is outside the source tree. Per the header contract
(unix_jni.h lines 86-96) and the spec: on success the logical attribute
length is returned and up to capacity bytes are written (truncation is
reported through the length, not as an error); a failure whose error
number is the effective ENODATA returns -1 with attr_not_found set true;
any other failure returns -1, sets attr_not_found false and preserves the
raw error number in errno. -/
def xattr_call (p : XAttrPlatform) (os : OsXattrResult) (capacity : Nat) : XAttrCallResult :=
  match os with
  | .attr value => ⟨(value.length : Int), value.take capacity, false, 0⟩
  | .fail e =>
      if effectiveENODATA p = some e then ⟨-1, [], true, e⟩
      else ⟨-1, [], false, e⟩

/-- Modelled from the spec: portable_getxattr (unix_jni.h lines 89-90),
the symlink-following variant; its outcome classification is xattr_call. -/
def portable_getxattr (p : XAttrPlatform) (os : OsXattrResult) (capacity : Nat) :
    XAttrCallResult :=
  xattr_call p os capacity

/-- Modelled from the spec: portable_lgetxattr (unix_jni.h lines 95-96),
the no-follow variant; same outcome classification as portable_getxattr. -/
def portable_lgetxattr (p : XAttrPlatform) (os : OsXattrResult) (capacity : Nat) :
    XAttrCallResult :=
  xattr_call p os capacity

/-- The success outcome: a non-negative length was returned. -/
def xattrSuccess (r : XAttrCallResult) : Prop := 0 ≤ r.ret

/-- The attribute-not-found outcome: -1 returned and the flag set. -/
def xattrNotFound (r : XAttrCallResult) : Prop :=
  r.ret = -1 ∧ r.attr_not_found = true

/-- The generic-failure outcome: -1 returned and the flag clear. -/
def xattrGenericError (r : XAttrCallResult) : Prop :=
  r.ret = -1 ∧ r.attr_not_found = false

/-- Exactly one of the three xattr outcomes holds, and on generic failure
the raw OS error number is preserved in errno. -/
def xattrExactlyOne (r : XAttrCallResult) (os : OsXattrResult) : Prop :=
  (xattrSuccess r ∧ ¬ xattrNotFound r ∧ ¬ xattrGenericError r) ∨
  (¬ xattrSuccess r ∧ xattrNotFound r ∧ ¬ xattrGenericError r) ∨
  (¬ xattrSuccess r ∧ ¬ xattrNotFound r ∧ xattrGenericError r ∧ r.errno = osErrno os)

/-- Process-wide sleep-inhibition state instrumented with a test double
for the OS block primitive: the stack depth plus counts of engage and
release calls made to the underlying OS mechanism. -/
structure SleepState where
  depth : Nat
  engages : Nat
  releases : Nat
  deriving DecidableEq

/-- The initial sleep-inhibition state: depth zero, no OS calls yet. -/
def sleepInit : SleepState := ⟨0, 0, 0⟩

/-- Modelled from the spec: the body of portable_push_disable_sleep is
outside the source tree; the header (unix_jni.h lines 101-108) and the
spec describe a stack discipline where each push increments the depth and
the 0-to-1 transition engages the OS sleep block. -/
def portable_push_disable_sleep (s : SleepState) : SleepState :=
  ⟨s.depth + 1, if s.depth = 0 then s.engages + 1 else s.engages, s.releases⟩

/-- Modelled from the spec: the body of portable_pop_disable_sleep is
outside the source tree; each pop decrements the depth and the 1-to-0
transition releases the OS sleep block. -/
def portable_pop_disable_sleep (s : SleepState) : SleepState :=
  ⟨s.depth - 1, s.engages, if s.depth = 1 then s.releases + 1 else s.releases⟩

/-- n consecutive calls to portable_push_disable_sleep. -/
def pushN : Nat → SleepState → SleepState
  | 0, s => s
  | n + 1, s => portable_push_disable_sleep (pushN n s)

/-- n consecutive calls to portable_pop_disable_sleep. -/
def popN : Nat → SleepState → SleepState
  | 0, s => s
  | n + 1, s => portable_pop_disable_sleep (popN n s)

/-- The two phases of a monitor lifecycle per the spec: UNSTARTED, then
ACTIVE forever once started. -/
inductive MonitorPhase where
  | UNSTARTED
  | ACTIVE
  deriving DecidableEq

/-- Per-monitor subscription state: its phase and the number of underlying
OS subscriptions that have been established (a test double counter). -/
structure MonitorState where
  phase : MonitorPhase
  subscriptions : Nat
  deriving DecidableEq

/-- The state before any start call. -/
def monitorInit : MonitorState := ⟨.UNSTARTED, 0⟩

/-- Modelled from the spec: the common idempotent start behaviour of the
four monitors, whose bodies are outside the source tree; the header notes
each start may be called more than once, and the spec makes a repeat call
while ACTIVE a no-op that establishes no additional OS subscription. -/
def start_monitoring (s : MonitorState) : MonitorState :=
  match s.phase with
  | .UNSTARTED => ⟨.ACTIVE, s.subscriptions + 1⟩
  | .ACTIVE => s

/-- Modelled from the spec: portable_start_suspend_monitoring
(unix_jni.h line 113), returning void. -/
def portable_start_suspend_monitoring (s : MonitorState) : MonitorState :=
  start_monitoring s

/-- Modelled from the spec: portable_start_thermal_monitoring
(unix_jni.h line 130), returning void. -/
def portable_start_thermal_monitoring (s : MonitorState) : MonitorState :=
  start_monitoring s

/-- Modelled from the spec: portable_start_system_load_advisory_monitoring
(unix_jni.h line 141), returning void. -/
def portable_start_system_load_advisory_monitoring (s : MonitorState) : MonitorState :=
  start_monitoring s

/-- Modelled from the spec: portable_start_memory_pressure_monitoring
(unix_jni.h line 152), returning void. -/
def portable_start_memory_pressure_monitoring (s : MonitorState) : MonitorState :=
  start_monitoring s

/-- n consecutive calls to one monitor's start operation. -/
def startN (f : MonitorState → MonitorState) : Nat → MonitorState → MonitorState
  | 0, s => s
  | n + 1, s => f (startN f n s)

/-- A stat buffer whose modification seconds exceed the 32-bit signed
range (2147483648 is 2 to the 31st). -/
def overflowStat : portable_stat_struct :=
  ⟨0, 0, 0, 0, 0, ⟨0, 0⟩, ⟨2147483648, 0⟩, ⟨0, 0⟩⟩

theorem toInt32_range (x : Int) : -2147483648 ≤ toInt32 x ∧ toInt32 x < 2147483648 := by
  unfold toInt32
  have h1 : (0 : Int) ≤ (x + 2147483648) % 4294967296 :=
    Int.emod_nonneg _ (by norm_num)
  have h2 : (x + 2147483648) % 4294967296 < 4294967296 :=
    Int.emod_lt_of_pos _ (by norm_num)
  omega

theorem pushN_spec (n : Nat) (h : 1 ≤ n) : pushN n sleepInit = ⟨n, 1, 0⟩ := by
  induction n with
  | zero => omega
  | succ m ih =>
    rcases Nat.eq_zero_or_pos m with h0 | hpos
    · subst h0; rfl
    · have hm : m ≠ 0 := by omega
      rw [pushN, ih hpos]
      simp [portable_push_disable_sleep, hm]

theorem popN_spec (n k : Nat) (hk : k < n) :
    popN k ⟨n, 1, 0⟩ = ⟨n - k, 1, 0⟩ := by
  induction k with
  | zero => simp [popN]
  | succ m ih =>
    have hm : m < n := by omega
    have h2 : n - m ≠ 1 := by omega
    rw [popN, ih hm]
    simp [portable_pop_disable_sleep, h2]
    omega

theorem popN_final (n : Nat) (h : 1 ≤ n) : popN n ⟨n, 1, 0⟩ = ⟨0, 1, 1⟩ := by
  obtain ⟨m, rfl⟩ : ∃ m, n = m + 1 := ⟨n - 1, by omega⟩
  rw [popN]
  rcases Nat.eq_zero_or_pos m with h0 | hpos
  · subst h0; rfl
  · rw [popN_spec (m + 1) m (by omega)]
    have he : m + 1 - m = 1 := by omega
    rw [he]
    rfl

theorem startN_spec (n : Nat) (h : 1 ≤ n) :
    startN start_monitoring n monitorInit = ⟨.ACTIVE, 1⟩ := by
  induction n with
  | zero => omega
  | succ m ih =>
    rcases Nat.eq_zero_or_pos m with h0 | hpos
    · subst h0; rfl
    · rw [startN, ih hpos]; rfl

/-- C1: the SuspensionReason enumeration assigns 0, 1, 2, 3 to the
SIGTSTP-stop, SIGCONT-resume, sleep-entry and wake reasons in that order,
MemoryPressureLevel assigns 0 to WARNING and 1 to CRITICAL, every
delivered callback value is one of these fixed numbers, and the values
match the host-side definitions byte-identically. -/
theorem suspension_memory_enum_wire_contract :
    suspensionReasonValue .SuspensionReasonSIGTSTP = 0 ∧
    suspensionReasonValue .SuspensionReasonSIGCONT = 1 ∧
    suspensionReasonValue .SuspensionReasonSleep = 2 ∧
    suspensionReasonValue .SuspensionReasonWake = 3 ∧
    memoryPressureLevelValue .MemoryPressureLevelWarning = 0 ∧
    memoryPressureLevelValue .MemoryPressureLevelCritical = 1 ∧
    (∀ r : SuspensionReason,
      suspensionReasonValue r = hostSuspensionReasonValue r ∧
      (suspensionReasonValue r = 0 ∨ suspensionReasonValue r = 1 ∨
       suspensionReasonValue r = 2 ∨ suspensionReasonValue r = 3)) ∧
    (∀ l : MemoryPressureLevel,
      memoryPressureLevelValue l = hostMemoryPressureLevelValue l ∧
      (memoryPressureLevelValue l = 0 ∨ memoryPressureLevelValue l = 1)) := by
  refine ⟨rfl, rfl, rfl, rfl, rfl, rfl, ?_, ?_⟩
  · intro r
    cases r <;> simp [suspensionReasonValue, hostSuspensionReasonValue]
  · intro l
    cases l <;> simp [memoryPressureLevelValue, hostMemoryPressureLevelValue]

/-- C2: every call to portable_getxattr or portable_lgetxattr exhibits
exactly one of the three outcomes: success (non-negative length),
attribute-not-found (-1 with attr_not_found true), or generic failure
(-1 with attr_not_found false and the raw OS error number preserved in
errno); never two at once and never none. -/
theorem xattr_exactly_one_outcome (p : XAttrPlatform) (os : OsXattrResult)
    (capacity : Nat) :
    xattrExactlyOne (portable_getxattr p os capacity) os ∧
    xattrExactlyOne (portable_lgetxattr p os capacity) os := by
  have hcommon : xattrExactlyOne (xattr_call p os capacity) os := by
    cases os with
    | attr value =>
      left
      refine ⟨?_, ?_, ?_⟩ <;>
        simp [xattr_call, xattrSuccess, xattrNotFound, xattrGenericError]
    | fail e =>
      by_cases hnd : effectiveENODATA p = some e
      · right; left
        refine ⟨?_, ?_, ?_⟩ <;>
          simp [xattr_call, hnd, xattrSuccess, xattrNotFound, xattrGenericError]
      · right; right
        refine ⟨?_, ?_, ?_, ?_⟩ <;>
          simp [xattr_call, hnd, xattrSuccess, xattrNotFound, xattrGenericError,
            osErrno]
  exact ⟨hcommon, hcommon⟩

/-- C3: for every balanced sequence of n pushes followed by n pops of the
sleep-inhibition stack starting at depth 0, the OS sleep block is engaged
exactly once (on the first push) and released exactly once (on the last
pop), and it is never released while the depth is still positive. -/
theorem sleep_balanced_engage_release_once (n : Nat) (h : 1 ≤ n) :
    (pushN n sleepInit).engages = 1 ∧
    (pushN n sleepInit).releases = 0 ∧
    (pushN n sleepInit).depth = n ∧
    (∀ k, k < n →
      0 < (popN k (pushN n sleepInit)).depth ∧
      (popN k (pushN n sleepInit)).releases = 0 ∧
      (popN k (pushN n sleepInit)).engages = 1) ∧
    popN n (pushN n sleepInit) = ⟨0, 1, 1⟩ := by
  rw [pushN_spec n h]
  refine ⟨rfl, rfl, rfl, ?_, popN_final n h⟩
  intro k hk
  rw [popN_spec n k hk]
  exact ⟨by simp; omega, rfl, rfl⟩

/-- C3 witness: the spec scenario of two pushes followed by two pops
engages once and releases once. -/
theorem sleep_balanced_engage_release_once_witness :
    1 ≤ 2 ∧ popN 2 (pushN 2 sleepInit) = ⟨0, 1, 1⟩ :=
  ⟨by decide, (sleep_balanced_engage_release_once 2 (by decide)).2.2.2.2⟩

/-- C4: on every platform lacking the fstatat(2) syscall, portable_fstatat
fails with errno set to the distinct ENOSYS code, which differs from the
generic input-output failure code, whatever the underlying OS outcome
would have been. -/
theorem fstatat_enosys_when_unavailable (p : FstatatPlatform)
    (os : StatCallResult) (h : p.has_fstatat = false) :
    portable_fstatat p os = .err ENOSYS ∧ ENOSYS ≠ EIOCode := by
  constructor
  · simp [portable_fstatat, h]
  · decide

/-- C4 witness: a platform without fstatat turns a would-be success into
the ENOSYS failure. -/
theorem fstatat_enosys_when_unavailable_witness :
    FstatatPlatform.has_fstatat ⟨false⟩ = false ∧
    (portable_fstatat ⟨false⟩ (StatCallResult.err 13) = .err ENOSYS ∧ ENOSYS ≠ EIOCode) :=
  ⟨rfl, fstatat_enosys_when_unavailable ⟨false⟩ (StatCallResult.err 13) rfl⟩

/-- C5: on a platform where ENODATA is not defined but ENOATTR is, an
xattr lookup failing with ENOATTR produces the same attribute-absent
(not-found) outcome that an ENODATA failure produces on a platform with
native ENODATA; the outcome is defined by attribute absence, not by one
specific numeric code. -/
theorem enoattr_fallback_not_found (a d capacity : Nat) :
    xattrNotFound (portable_getxattr ⟨none, some a⟩ (.fail a) capacity) ∧
    xattrNotFound (portable_lgetxattr ⟨none, some a⟩ (.fail a) capacity) ∧
    xattrNotFound (portable_getxattr ⟨some d, none⟩ (.fail d) capacity) ∧
    portable_getxattr ⟨none, some a⟩ (.fail a) capacity =
      portable_getxattr ⟨some a, none⟩ (.fail a) capacity := by
  refine ⟨?_, ?_, ?_, ?_⟩ <;>
    simp [portable_getxattr, portable_lgetxattr, xattr_call, effectiveENODATA,
      xattrNotFound]

/-- C6: for each of the four monitor kinds, starting an already-ACTIVE
monitor is a no-op establishing no additional OS subscription, and n
sequential start calls from the unstarted state, for any n at least 1,
result in exactly one underlying subscription. -/
theorem start_monitoring_idempotent (n : Nat) (h : 1 ≤ n) :
    (startN portable_start_suspend_monitoring n monitorInit).subscriptions = 1 ∧
    (startN portable_start_thermal_monitoring n monitorInit).subscriptions = 1 ∧
    (startN portable_start_system_load_advisory_monitoring n monitorInit).subscriptions = 1 ∧
    (startN portable_start_memory_pressure_monitoring n monitorInit).subscriptions = 1 ∧
    (∀ s : MonitorState, s.phase = MonitorPhase.ACTIVE →
      portable_start_suspend_monitoring s = s ∧
      portable_start_thermal_monitoring s = s ∧
      portable_start_system_load_advisory_monitoring s = s ∧
      portable_start_memory_pressure_monitoring s = s) := by
  have e1 : portable_start_suspend_monitoring = start_monitoring := rfl
  have e2 : portable_start_thermal_monitoring = start_monitoring := rfl
  have e3 : portable_start_system_load_advisory_monitoring = start_monitoring := rfl
  have e4 : portable_start_memory_pressure_monitoring = start_monitoring := rfl
  rw [e1, e2, e3, e4, startN_spec n h]
  refine ⟨rfl, rfl, rfl, rfl, ?_⟩
  intro s hs
  have hno : start_monitoring s = s := by
    cases s with
    | mk ph subs =>
      cases ph with
      | UNSTARTED => simp at hs
      | ACTIVE => rfl
  exact ⟨hno, hno, hno, hno⟩

/-- C6 witness: two sequential starts of the suspend monitor establish
exactly one subscription. -/
theorem start_monitoring_idempotent_witness :
    1 ≤ 2 ∧
    (startN portable_start_suspend_monitoring 2 monitorInit).subscriptions = 1 :=
  ⟨by decide, (start_monitoring_idempotent 2 (by decide)).1⟩

/-- C7: for an attribute of logical length L read into a buffer of
capacity C with C strictly below L, portable_getxattr returns the logical
length L, writes exactly C bytes into the buffer, and the call is a
success outcome, never a not-found or error outcome. -/
theorem getxattr_truncation (p : XAttrPlatform) (value : List Nat)
    (capacity : Nat) (h : capacity < value.length) :
    (portable_getxattr p (.attr value) capacity).ret = (value.length : Int) ∧
    (portable_getxattr p (.attr value) capacity).written.length = capacity ∧
    (portable_getxattr p (.attr value) capacity).written = value.take capacity ∧
    xattrSuccess (portable_getxattr p (.attr value) capacity) ∧
    ¬ xattrNotFound (portable_getxattr p (.attr value) capacity) ∧
    ¬ xattrGenericError (portable_getxattr p (.attr value) capacity) := by
  refine ⟨rfl, ?_, rfl, ?_, ?_, ?_⟩
  all_goals
    simp [portable_getxattr, xattr_call, xattrSuccess, xattrNotFound,
      xattrGenericError]
  all_goals omega

/-- C7 witness: a three-byte attribute read into a two-byte buffer returns
length 3 and writes 2 bytes. -/
theorem getxattr_truncation_witness :
    2 < ([7, 8, 9] : List Nat).length ∧
    (portable_getxattr ⟨some 61, none⟩ (.attr [7, 8, 9]) 2).ret = 3 ∧
    (portable_getxattr ⟨some 61, none⟩ (.attr [7, 8, 9]) 2).written.length = 2 :=
  ⟨by decide,
    (getxattr_truncation ⟨some 61, none⟩ [7, 8, 9] 2 (by decide)).1,
    (getxattr_truncation ⟨some 61, none⟩ [7, 8, 9] 2 (by decide)).2.1⟩

/-- C8: StatSeconds and StatNanoSeconds are pure total functions with no
failure path: for every stat result and every selector among the three
timestamp kinds, two extractions with the same selector yield identical
values, and each extraction is exactly the selected field narrowed to the
declared return type, with no error outcome. -/
theorem stat_time_extraction_pure (statbuf : portable_stat_struct) (t : StatTimes) :
    StatSeconds statbuf t = StatSeconds statbuf t ∧
    StatNanoSeconds statbuf t = StatNanoSeconds statbuf t ∧
    StatSeconds statbuf t = toInt32 (selectTimespec statbuf t).tv_sec ∧
    StatNanoSeconds statbuf t = toInt32 (selectTimespec statbuf t).tv_nsec ∧
    (t = .STAT_ATIME ∨ t = .STAT_MTIME ∨ t = .STAT_CTIME) := by
  refine ⟨rfl, rfl, rfl, rfl, ?_⟩
  cases t
  · exact Or.inl rfl
  · exact Or.inr (Or.inl rfl)
  · exact Or.inr (Or.inr rfl)

/-- C9: all four start operations return void: each is a total state
transformer with no error component in its result, and from every state
the monitor ends up ACTIVE, so a caller can never observe a failed start
through the return value. -/
theorem start_monitoring_no_error_path (s : MonitorState) :
    (portable_start_suspend_monitoring s).phase = .ACTIVE ∧
    (portable_start_thermal_monitoring s).phase = .ACTIVE ∧
    (portable_start_system_load_advisory_monitoring s).phase = .ACTIVE ∧
    (portable_start_memory_pressure_monitoring s).phase = .ACTIVE := by
  have hph : (start_monitoring s).phase = .ACTIVE := by
    cases s with
    | mk ph subs => cases ph <;> rfl
  exact ⟨hph, hph, hph, hph⟩

/-- C10: StatSeconds and StatNanoSeconds return a 32-bit signed C int, so
every extracted value lies in the 32-bit signed range, and a timestamp
whose seconds field holds 2 to the 31st is not representable: its
extraction wraps to a different value. -/
theorem stat_seconds_int32_narrowing :
    (∀ (statbuf : portable_stat_struct) (t : StatTimes),
      -2147483648 ≤ StatSeconds statbuf t ∧ StatSeconds statbuf t < 2147483648 ∧
      -2147483648 ≤ StatNanoSeconds statbuf t ∧
      StatNanoSeconds statbuf t < 2147483648) ∧
    overflowStat.st_mtim.tv_sec = 2147483648 ∧
    StatSeconds overflowStat .STAT_MTIME ≠ overflowStat.st_mtim.tv_sec ∧
    StatSeconds overflowStat .STAT_MTIME = -2147483648 := by
  refine ⟨?_, rfl, ?_, ?_⟩
  · intro statbuf t
    obtain ⟨hs1, hs2⟩ := toInt32_range (selectTimespec statbuf t).tv_sec
    obtain ⟨hn1, hn2⟩ := toInt32_range (selectTimespec statbuf t).tv_nsec
    exact ⟨hs1, hs2, hn1, hn2⟩
  · decide
  · decide
